import Mathlib

/-!
Verification of the per-connection protocol engine of the vhost-device
vsock backend (file vsock/src/vsock_conn.rs), shallowly embedded in Lean.

All 32-bit counters of the Rust code (fields of type u32 or Wrapping of u32)
are represented as natural numbers together with explicit reduction modulo
2 to the 32, performed exactly where the Rust code wraps.  Stateful methods
taking a mutable reference to the connection are embedded as functions from
the connection value (and the packet value, when the packet is mutable) to
the resulting values; I/O performed on the host stream and on the epoll
facility is embedded as explicit oracle parameters describing the outcome
of each external call.
-/

/-- Modulus of 32-bit wrapping arithmetic. -/
def U32M : Nat := 4294967296

/-- 32-bit wrapping addition, as performed by Wrapping of u32 addition. -/
def wadd (a b : Nat) : Nat := (a + b) % U32M

/-- 32-bit wrapping subtraction, as performed by Wrapping of u32 subtraction. -/
def wsub (a b : Nat) : Nat := (a % U32M + (U32M - b % U32M)) % U32M

/-- Modelled from the spec: the five outbound operation tags of the
Outbound-Operation Queue (file rxops.rs is not under src/). -/
inductive RxOps where
  | Request
  | Rw
  | Response
  | CreditUpdate
  | Reset
deriving DecidableEq

/-- Modelled from the spec: the Outbound-Operation Queue (file rxqueue.rs is
not under src/): an ordered collection of operation tags with set-like
deduplication on enqueue and FIFO dequeue order. -/
structure RxQueue where
  queue : List RxOps
deriving DecidableEq

/-- Modelled from the spec: the queue is created empty. -/
def RxQueue.new : RxQueue := ⟨[]⟩

/-- Modelled from the spec: membership test without mutation. -/
def RxQueue.contains (q : RxQueue) (op : RxOps) : Bool := decide (op ∈ q.queue)

/-- Modelled from the spec: enqueue is idempotent per operation kind —
queueing an operation already present is a no-op. -/
def RxQueue.enqueue (q : RxQueue) (op : RxOps) : RxQueue :=
  if q.contains op then q else ⟨q.queue ++ [op]⟩

/-- Modelled from the spec: dequeue returns operations in the order they were
first enqueued, removing the returned operation. -/
def RxQueue.dequeue (q : RxQueue) : Option RxOps × RxQueue :=
  match q.queue with
  | [] => (none, q)
  | op :: rest => (some op, ⟨rest⟩)

/-- Modelled from the spec: peek is read-only. -/
def RxQueue.peek (q : RxQueue) : Option RxOps := q.queue.head?

/-- Modelled from the spec: whether any operation remains pending. -/
def RxQueue.pending_rx (q : RxQueue) : Bool := !q.queue.isEmpty

/-- Modelled from the spec: the error kinds of the backend (vhu_vsock.rs is
not under src/); only the variants reachable from the connection code are
modelled, and the epoll-registration failure is folded into EpollAdd. -/
inductive VsockError where
  | PktBufMissing
  | NoRequestRx
  | UnixWrite
  | EpollAdd
deriving DecidableEq

/-- Modelled from the spec: the Local Transmit Buffer (file txbuf.rs is not
under src/): an unbounded, append-ordered byte sequence.  Bytes are numbers
below 256; allocation exhaustion is not representable in the model, so push
always succeeds while keeping the Result-shaped interface of the source. -/
structure LocalTxBuf where
  data : List Nat
deriving DecidableEq

/-- Modelled from the spec: the buffer is created empty. -/
def LocalTxBuf.new : LocalTxBuf := ⟨[]⟩

/-- Modelled from the spec: emptiness test. -/
def LocalTxBuf.is_empty (b : LocalTxBuf) : Bool := b.data.isEmpty

/-- Modelled from the spec: push appends bytes, preserving byte order. -/
def LocalTxBuf.push (b : LocalTxBuf) (bytes : List Nat) :
    Except VsockError LocalTxBuf :=
  Except.ok ⟨b.data ++ bytes⟩

/-- Modelled from the spec: wire operation code of a connection request. -/
def VSOCK_OP_REQUEST : Nat := 1

/-- Modelled from the spec: wire operation code of a connection response. -/
def VSOCK_OP_RESPONSE : Nat := 2

/-- Modelled from the spec: wire operation code of a connection reset. -/
def VSOCK_OP_RST : Nat := 3

/-- Modelled from the spec: wire operation code of a shutdown notification. -/
def VSOCK_OP_SHUTDOWN : Nat := 4

/-- Modelled from the spec: wire operation code of a data packet. -/
def VSOCK_OP_RW : Nat := 5

/-- Modelled from the spec: wire operation code of a credit update. -/
def VSOCK_OP_CREDIT_UPDATE : Nat := 6

/-- Modelled from the spec: wire operation code of a credit request. -/
def VSOCK_OP_CREDIT_REQUEST : Nat := 7

/-- Modelled from the spec: packet type tag of stream sockets. -/
def VSOCK_TYPE_STREAM : Nat := 1

/-- Modelled from the spec: flag bit requesting receive-direction shutdown. -/
def VSOCK_FLAGS_SHUTDOWN_RCV : Nat := 1

/-- Modelled from the spec: flag bit requesting send-direction shutdown. -/
def VSOCK_FLAGS_SHUTDOWN_SEND : Nat := 2

/-- Modelled from the spec: the fixed connection receive-buffer capacity
advertised in every guest-bound header (constant in vhu_vsock.rs, which is
not under src/). -/
def CONN_TX_BUF_SIZE : Nat := 65536

/-- Modelled from the spec: the packet view collaborator — semantic get/set
access to the header fields and the optional payload area of a vsock packet.
The buf field is the payload data area (none when the packet carries no data
descriptor); len is the payload length header field. -/
structure VsockPacket where
  src_cid : Nat
  dst_cid : Nat
  src_port : Nat
  dst_port : Nat
  pkt_type : Nat
  op : Nat
  flags : Nat
  buf_alloc : Nat
  fwd_cnt : Nat
  len : Nat
  buf : Option (List Nat)
deriving DecidableEq

/-- Outcome of one read call on the host stream (oracle for the external
stream collaborator): either the bytes obtained, or a read error. -/
inductive StreamRead where
  | ok (bytes : List Nat)
  | err
deriving DecidableEq

/-- Outcome of one write call on the host stream (oracle for the external
stream collaborator): number of bytes accepted, a would-block condition, or
any other write error. -/
inductive StreamWrite where
  | ok (cnt : Nat)
  | wouldBlock
  | err
deriving DecidableEq

/-- The connection state machine state: the fields of VsockConnection in
vsock_conn.rs.  The stream handle itself is not state that the protocol
logic reads; its I/O results enter through the oracle parameters. -/
structure VsockConnection where
  connect : Bool
  peer_port : Nat
  rx_queue : RxQueue
  local_cid : Nat
  local_port : Nat
  guest_cid : Nat
  fwd_cnt : Nat
  last_fwd_cnt : Nat
  peer_buf_alloc : Nat
  peer_fwd_cnt : Nat
  rx_cnt : Nat
  epoll_fd : Int
  tx_buf : LocalTxBuf
deriving DecidableEq

/-- Constructor for host-side initiated connections (new_local_init). -/
def VsockConnection.new_local_init (local_cid : Nat) (local_port : Nat)
    (guest_cid : Nat) (guest_port : Nat) (epoll_fd : Int) : VsockConnection :=
  { connect := false
    peer_port := guest_port
    rx_queue := RxQueue.new
    local_cid := local_cid
    local_port := local_port
    guest_cid := guest_cid
    fwd_cnt := 0
    last_fwd_cnt := 0
    peer_buf_alloc := 0
    peer_fwd_cnt := 0
    rx_cnt := 0
    epoll_fd := epoll_fd
    tx_buf := LocalTxBuf.new }

/-- Constructor for guest-initiated connections (new_peer_init). -/
def VsockConnection.new_peer_init (local_cid : Nat) (local_port : Nat)
    (guest_cid : Nat) (guest_port : Nat) (epoll_fd : Int)
    (peer_buf_alloc : Nat) : VsockConnection :=
  { connect := false
    peer_port := guest_port
    rx_queue := RxQueue.new.enqueue RxOps.Response
    local_cid := local_cid
    local_port := local_port
    guest_cid := guest_cid
    fwd_cnt := 0
    last_fwd_cnt := 0
    peer_buf_alloc := peer_buf_alloc
    peer_fwd_cnt := 0
    rx_cnt := 0
    epoll_fd := epoll_fd
    tx_buf := LocalTxBuf.new }

/-- Rewrite the learned peer port (set_peer_port). -/
def VsockConnection.set_peer_port (c : VsockConnection) (peer_port : Nat) :
    VsockConnection :=
  { c with peer_port := peer_port }

/-- Max number of bytes we can send to the peer without overflowing its
buffer (peer_avail_credit), the 32-bit wrapping computation
peer_buf_alloc - (rx_cnt - peer_fwd_cnt). -/
def VsockConnection.peer_avail_credit (c : VsockConnection) : Nat :=
  wsub c.peer_buf_alloc (wsub c.rx_cnt c.peer_fwd_cnt)

/-- Whether a credit update from the peer is needed before sending more data
(need_credit_update_from_peer). -/
def VsockConnection.need_credit_update_from_peer (c : VsockConnection) : Bool :=
  c.peer_avail_credit == 0

/-- Initialize all header fields in the guest-bound vsock packet (init_pkt).
The source keeps the header zeroing commented out, so fields not listed here
(op, flags, len, buf) retain their incoming values. -/
def VsockConnection.init_pkt (c : VsockConnection) (pkt : VsockPacket) :
    VsockPacket :=
  { pkt with
    src_cid := c.local_cid
    dst_cid := c.guest_cid
    src_port := c.local_port
    dst_port := c.peer_port
    pkt_type := VSOCK_TYPE_STREAM
    buf_alloc := CONN_TX_BUF_SIZE
    fwd_cnt := c.fwd_cnt }

/-- Result of recv_pkt: the Result value of the call (none models Ok) plus
the final state of the two mutable references, the connection and the
packet. -/
structure RecvResult where
  res : Option VsockError
  conn : VsockConnection
  pkt : VsockPacket
deriving DecidableEq

/-- Process a dequeued rx operation into a guest-bound packet (recv_pkt).
The read oracle gives the outcome of the single read call the source makes
on the host stream; its argument is the max_read_len passed to that call.
epollRegisterOk tells whether the epoll_register call succeeds. -/
def VsockConnection.recv_pkt (c : VsockConnection) (pkt0 : VsockPacket)
    (read : Nat → StreamRead) (epollRegisterOk : Bool) : RecvResult :=
  let pkt := c.init_pkt pkt0
  match c.rx_queue.dequeue with
  | (some RxOps.Request, q) =>
      ⟨none, { c with rx_queue := q }, { pkt with op := VSOCK_OP_REQUEST }⟩
  | (some RxOps.Rw, q) =>
      if !c.connect then
        ⟨none, { c with rx_queue := q }, { pkt with op := VSOCK_OP_RST }⟩
      else if c.need_credit_update_from_peer then
        ⟨none, { c with rx_queue := q, last_fwd_cnt := c.fwd_cnt },
          { pkt with op := VSOCK_OP_CREDIT_REQUEST }⟩
      else
        match pkt.buf with
        | none => ⟨some VsockError.PktBufMissing, { c with rx_queue := q }, pkt⟩
        | some b =>
          let max_read_len := min b.length c.peer_avail_credit
          match read max_read_len with
          | StreamRead.err =>
              ⟨none, { c with rx_queue := q }, pkt⟩
          | StreamRead.ok bytes =>
            let read_cnt := bytes.length
            if read_cnt = 0 then
              let pkt2 := { pkt with
                op := VSOCK_OP_SHUTDOWN
                flags := pkt.flags ||| VSOCK_FLAGS_SHUTDOWN_RCV |||
                  VSOCK_FLAGS_SHUTDOWN_SEND }
              let c2 := { c with
                rx_queue := q
                rx_cnt := wadd c.rx_cnt pkt2.len
                last_fwd_cnt := c.fwd_cnt }
              ⟨none, c2, pkt2⟩
            else
              let pkt2 := { pkt with
                op := VSOCK_OP_RW
                len := read_cnt % U32M
                buf := some (bytes ++ b.drop read_cnt) }
              if epollRegisterOk then
                let c2 := { c with
                  rx_queue := q
                  rx_cnt := wadd c.rx_cnt pkt2.len
                  last_fwd_cnt := c.fwd_cnt }
                ⟨none, c2, pkt2⟩
              else
                ⟨some VsockError.EpollAdd, { c with rx_queue := q }, pkt2⟩
  | (some RxOps.Response, q) =>
      ⟨none, { c with rx_queue := q, connect := true },
        { pkt with op := VSOCK_OP_RESPONSE }⟩
  | (some RxOps.CreditUpdate, q) =>
      if !q.pending_rx then
        ⟨none, { c with rx_queue := q, last_fwd_cnt := c.fwd_cnt },
          { pkt with op := VSOCK_OP_CREDIT_UPDATE }⟩
      else
        ⟨none, { c with rx_queue := q }, pkt⟩
  | (some RxOps.Reset, q) =>
      ⟨some VsockError.NoRequestRx, { c with rx_queue := q }, pkt⟩
  | (none, _) =>
      ⟨some VsockError.NoRequestRx, c, pkt⟩

/-- Shared tail of send_bytes after the write call produced a byte count:
account the bytes into fwd_cnt, enqueue a CreditUpdate, and push any
unwritten remainder into the transmit buffer. -/
def VsockConnection.send_bytes_after_write (c : VsockConnection)
    (buf : List Nat) (written : Nat) : Except VsockError VsockConnection :=
  let c2 := { c with
    fwd_cnt := wadd c.fwd_cnt written
    rx_queue := c.rx_queue.enqueue RxOps.CreditUpdate }
  if written ≠ buf.length then
    (c2.tx_buf.push (buf.drop written)).map fun t => { c2 with tx_buf := t }
  else
    Except.ok c2

/-- Write data to the host-side stream (send_bytes).  The oracle gives the
outcome of the single write call on the host stream; a would-block outcome
is treated as zero bytes written, any other write error becomes UnixWrite.
When the transmit buffer is non-empty the bytes are pushed to it instead and
no write call is made. -/
def VsockConnection.send_bytes (c : VsockConnection) (buf : List Nat)
    (w : StreamWrite) : Except VsockError VsockConnection :=
  if c.tx_buf.is_empty = false then
    (c.tx_buf.push buf).map fun t => { c with tx_buf := t }
  else
    match w with
    | StreamWrite.err => Except.error VsockError.UnixWrite
    | StreamWrite.wouldBlock => c.send_bytes_after_write buf 0
    | StreamWrite.ok cnt => c.send_bytes_after_write buf cnt

/-- How a send_pkt call terminates: a returned Result value (ok or err), or
an abort at one of the two unwrap calls of the source (the handshake
acknowledgement write in the RESPONSE arm and the fallback epoll
registration in the CREDIT_UPDATE arm), or at the payload slicing. -/
inductive SendStatus where
  | ok
  | err (e : VsockError)
  | panicked
deriving DecidableEq

/-- Result of send_pkt: how the call terminated plus the final state of the
connection (the packet itself is taken by shared reference and never
mutated). -/
structure SendResult where
  status : SendStatus
  conn : VsockConnection
deriving DecidableEq

/-- Outcome of the RW arm of send_pkt: a send_bytes failure is swallowed
(the packet is dropped and the call still reports success, keeping the
connection state from before the send_bytes call). -/
def rwOutcome (c : VsockConnection) (r : Except VsockError VsockConnection) :
    SendResult :=
  match r with
  | Except.ok c2 => ⟨SendStatus.ok, c2⟩
  | Except.error _ => ⟨SendStatus.ok, c⟩

/-- Deliver a guest generated packet to this connection (send_pkt).
Oracles: w is the outcome of the stream write made inside send_bytes (if
reached); writeAllOk tells whether the handshake acknowledgement write_all
succeeds; epollModifyOk and epollRegisterOk tell whether the epoll modify
call and the fallback register call succeed. -/
def VsockConnection.send_pkt (c0 : VsockConnection) (pkt : VsockPacket)
    (w : StreamWrite) (writeAllOk : Bool) (epollModifyOk : Bool)
    (epollRegisterOk : Bool) : SendResult :=
  let c := { c0 with peer_buf_alloc := pkt.buf_alloc, peer_fwd_cnt := pkt.fwd_cnt }
  if pkt.op = VSOCK_OP_RESPONSE then
    if writeAllOk then ⟨SendStatus.ok, { c with connect := true }⟩
    else ⟨SendStatus.panicked, c⟩
  else if pkt.op = VSOCK_OP_RW then
    match pkt.buf with
    | none => ⟨SendStatus.ok, c⟩
    | some b =>
      if pkt.len ≤ b.length then
        rwOutcome c (c.send_bytes (b.take pkt.len) w)
      else
        ⟨SendStatus.panicked, c⟩
  else if pkt.op = VSOCK_OP_CREDIT_UPDATE then
    if epollModifyOk then ⟨SendStatus.ok, c⟩
    else if epollRegisterOk then ⟨SendStatus.ok, c⟩
    else ⟨SendStatus.panicked, c⟩
  else if pkt.op = VSOCK_OP_CREDIT_REQUEST then
    ⟨SendStatus.ok, { c with rx_queue := c.rx_queue.enqueue RxOps.CreditUpdate }⟩
  else if pkt.op = VSOCK_OP_SHUTDOWN then
    if (pkt.flags &&& VSOCK_FLAGS_SHUTDOWN_RCV != 0) &&
       (pkt.flags &&& VSOCK_FLAGS_SHUTDOWN_SEND != 0) &&
       c.tx_buf.is_empty then
      ⟨SendStatus.ok, { c with rx_queue := c.rx_queue.enqueue RxOps.Reset }⟩
    else
      ⟨SendStatus.ok, c⟩
  else
    ⟨SendStatus.ok, c⟩

/-- An empty guest-bound packet view with a five-byte data area, used as a
concrete input in the evaluation theorems below. -/
def pktSample : VsockPacket :=
  { src_cid := 0
    dst_cid := 0
    src_port := 0
    dst_port := 0
    pkt_type := 0
    op := 0
    flags := 0
    buf_alloc := 0
    fwd_cnt := 0
    len := 0
    buf := some [7, 8, 9, 10, 11] }

/-- A connected connection with peer buffer 65536 and a pending Rw
operation, used as a concrete input. -/
def connRw : VsockConnection :=
  { VsockConnection.new_local_init 2 5000 3 5001 (-1) with
    connect := true
    peer_buf_alloc := 65536
    rx_queue := ⟨[RxOps.Rw]⟩ }

/-- The same connection before the handshake completed. -/
def connRwNoConn : VsockConnection := { connRw with connect := false }

/-- The same connection with zero peer available credit. -/
def connRwNoCredit : VsockConnection := { connRw with peer_buf_alloc := 0 }

/-- The same connection with a non-empty local transmit buffer. -/
def connBusy : VsockConnection := { connRw with tx_buf := ⟨[9]⟩ }

/-- A guest RW packet carrying three payload bytes. -/
def pktRw : VsockPacket :=
  { pktSample with op := VSOCK_OP_RW, len := 3, buf := some [1, 2, 3] }

/-- A guest SHUTDOWN packet with both direction flags set. -/
def pktShutdown : VsockPacket :=
  { pktSample with op := VSOCK_OP_SHUTDOWN, flags := 3 }

/-- C1: for every value of peer_buf_alloc, rx_cnt and peer_fwd_cnt, the
total function peer_avail_credit equals the 32-bit wrapping computation
peer_buf_alloc - (rx_cnt - peer_fwd_cnt), here stated against integer
arithmetic modulo 2 to the 32, and need_credit_update_from_peer returns
true exactly when peer_avail_credit is 0. -/
theorem peer_avail_credit_wrapping (c : VsockConnection) :
    ((c.peer_avail_credit : Nat) : Int) =
      ((c.peer_buf_alloc : Int) - ((c.rx_cnt : Int) - (c.peer_fwd_cnt : Int)))
        % (U32M : Int)
    ∧ (c.need_credit_update_from_peer = true ↔ c.peer_avail_credit = 0) := by
  constructor
  · unfold VsockConnection.peer_avail_credit wsub U32M
    omega
  · simp [VsockConnection.need_credit_update_from_peer]

/-- C1 evaluated at the example inputs of the claim: peer_buf_alloc 65536
with rx_cnt 0 gives credit 65536, with rx_cnt 65536 gives credit 0 and a
needed credit update. -/
theorem peer_avail_credit_wrapping_witness :
    connRw.peer_avail_credit = 65536
    ∧ { connRw with rx_cnt := 65536 }.peer_avail_credit = 0
    ∧ { connRw with rx_cnt := 65536 }.need_credit_update_from_peer = true
    ∧ ({ connRw with rx_cnt := 65536 }.need_credit_update_from_peer = true ↔
        { connRw with rx_cnt := 65536 }.peer_avail_credit = 0) :=
  ⟨by decide, by decide, by decide,
    (peer_avail_credit_wrapping { connRw with rx_cnt := 65536 }).2⟩

/-- Helper: the RW arm of send_pkt reports success whatever send_bytes
returned. -/
theorem rwOutcome_status (c : VsockConnection)
    (r : Except VsockError VsockConnection) :
    (rwOutcome c r).status = SendStatus.ok := by
  cases r <;> rfl

/-- C2: send_pkt never returns an error value, and on an RW packet,
including when the payload write to the host stream fails or the packet is
dropped as empty, it returns success.  The hypothesis reflects the packet
view collaborator's guarantee that the recorded payload length fits the
data area. -/
theorem send_pkt_no_error (c0 : VsockConnection) (pkt : VsockPacket)
    (w : StreamWrite) (writeAllOk : Bool) (epollModifyOk : Bool)
    (epollRegisterOk : Bool)
    (hlen : ∀ b, pkt.buf = some b → pkt.len ≤ b.length) :
    (∀ e, (c0.send_pkt pkt w writeAllOk epollModifyOk epollRegisterOk).status ≠
      SendStatus.err e)
    ∧ (pkt.op = VSOCK_OP_RW →
      (c0.send_pkt pkt w writeAllOk epollModifyOk epollRegisterOk).status =
        SendStatus.ok) := by
  constructor
  · intro e
    unfold VsockConnection.send_pkt
    repeat' split
    all_goals try simp [rwOutcome_status]
    all_goals split <;> simp
  · intro hop
    unfold VsockConnection.send_pkt
    simp only [hop, VSOCK_OP_RW, VSOCK_OP_RESPONSE]
    norm_num
    split
    · rfl
    · rename_i b heq
      rw [if_pos]
      · exact rwOutcome_status _ _
      · exact hlen b (by simpa using heq)

/-- C2 evaluated on a concrete RW packet whose stream write fails: the call
still reports success and no error value is produced. -/
theorem send_pkt_no_error_witness :
    (connRw.send_pkt pktRw StreamWrite.err true true true).status ≠
      SendStatus.err VsockError.UnixWrite
    ∧ (connRw.send_pkt pktRw StreamWrite.err true true true).status =
      SendStatus.ok := by
  have hlen : ∀ b, pktRw.buf = some b → pktRw.len ≤ b.length := by
    intro b hb
    have h2 : some (α := List Nat) [1, 2, 3] = some b := hb
    cases h2
    decide
  exact ⟨(send_pkt_no_error connRw pktRw StreamWrite.err true true true hlen).1
      VsockError.UnixWrite,
    (send_pkt_no_error connRw pktRw StreamWrite.err true true true hlen).2 rfl⟩

/-- C3 counterexample: on a connected connection with available credit and a
packet with a data area, a failing host stream read does NOT make recv_pkt
fail: at this concrete input the call returns success (res is none), the
packet operation is left untouched and the counters are not updated, so the
claim that such a read error causes the whole call to fail with an error is
false on the code. -/
theorem recv_pkt_read_err_claim_false :
    (connRw.recv_pkt pktSample (fun _ => StreamRead.err) true).res = none
    ∧ (connRw.recv_pkt pktSample (fun _ => StreamRead.err) true).pkt.op =
        pktSample.op
    ∧ (connRw.recv_pkt pktSample (fun _ => StreamRead.err) true).conn.rx_cnt =
        connRw.rx_cnt := by
  refine ⟨?_, ?_, ?_⟩ <;> decide

/-- C3 amended: during recv_pkt handling of a dequeued Rw on a connected
connection with available credit, a read from the host stream that fails
with an error (rather than returning zero bytes) is silently swallowed: the
call returns success with no packet operation set and with rx_cnt and
last_fwd_cnt unchanged — only the rx queue slot is consumed and the header
fields initialised. -/
theorem recv_pkt_read_err (c : VsockConnection) (pkt : VsockPacket)
    (read : Nat → StreamRead) (er : Bool) (rest : List RxOps) (b : List Nat)
    (hconn : c.connect = true) (hq : c.rx_queue.queue = RxOps.Rw :: rest)
    (hcred : c.need_credit_update_from_peer = false)
    (hbuf : pkt.buf = some b)
    (hread : read (min b.length c.peer_avail_credit) = StreamRead.err) :
    c.recv_pkt pkt read er =
      ⟨none, { c with rx_queue := ⟨rest⟩ }, c.init_pkt pkt⟩ := by
  simp [VsockConnection.recv_pkt, RxQueue.dequeue, hq, hconn, hcred,
    VsockConnection.init_pkt, hbuf, hread]

/-- C3 amended, evaluated at a concrete connection and packet. -/
theorem recv_pkt_read_err_witness :
    connRw.recv_pkt pktSample (fun _ => StreamRead.err) true =
      ⟨none, { connRw with rx_queue := ⟨[]⟩ }, connRw.init_pkt pktSample⟩ :=
  recv_pkt_read_err connRw pktSample (fun _ => StreamRead.err) true []
    [7, 8, 9, 10, 11] rfl rfl (by decide) rfl rfl

/-- C4: on a connected connection with available credit and an empty
outbound packet view (length field zero), a zero-byte read makes recv_pkt
produce a SHUTDOWN operation with both the receive and the send shutdown
flag bits set, and leaves rx_cnt unchanged. -/
theorem recv_pkt_zero_read (c : VsockConnection) (pkt : VsockPacket)
    (read : Nat → StreamRead) (er : Bool) (rest : List RxOps) (b : List Nat)
    (hconn : c.connect = true) (hq : c.rx_queue.queue = RxOps.Rw :: rest)
    (hcred : c.need_credit_update_from_peer = false)
    (hbuf : pkt.buf = some b)
    (hread : read (min b.length c.peer_avail_credit) = StreamRead.ok [])
    (hlen : pkt.len = 0) (hrx : c.rx_cnt < U32M) :
    c.recv_pkt pkt read er =
      ⟨none, { c with rx_queue := ⟨rest⟩, last_fwd_cnt := c.fwd_cnt },
        { c.init_pkt pkt with op := VSOCK_OP_SHUTDOWN, flags :=
            pkt.flags ||| VSOCK_FLAGS_SHUTDOWN_RCV |||
            VSOCK_FLAGS_SHUTDOWN_SEND }⟩
    ∧ (c.recv_pkt pkt read er).pkt.flags &&& VSOCK_FLAGS_SHUTDOWN_RCV ≠ 0
    ∧ (c.recv_pkt pkt read er).pkt.flags &&& VSOCK_FLAGS_SHUTDOWN_SEND ≠ 0 := by
  have hmain : c.recv_pkt pkt read er =
      ⟨none, { c with rx_queue := ⟨rest⟩, last_fwd_cnt := c.fwd_cnt },
        { c.init_pkt pkt with op := VSOCK_OP_SHUTDOWN, flags :=
            pkt.flags ||| VSOCK_FLAGS_SHUTDOWN_RCV |||
            VSOCK_FLAGS_SHUTDOWN_SEND }⟩ := by
    simp [VsockConnection.recv_pkt, RxQueue.dequeue, hq, hconn, hcred,
      VsockConnection.init_pkt, hbuf, hread, hlen, wadd,
      Nat.mod_eq_of_lt hrx]
  refine ⟨hmain, ?_, ?_⟩
  · rw [hmain]
    show (pkt.flags ||| VSOCK_FLAGS_SHUTDOWN_RCV ||| VSOCK_FLAGS_SHUTDOWN_SEND)
      &&& 2 ^ 0 ≠ 0
    rw [Nat.and_two_pow]
    simp [Nat.testBit_lor, VSOCK_FLAGS_SHUTDOWN_RCV]
  · rw [hmain]
    show (pkt.flags ||| VSOCK_FLAGS_SHUTDOWN_RCV ||| VSOCK_FLAGS_SHUTDOWN_SEND)
      &&& 2 ^ 1 ≠ 0
    rw [Nat.and_two_pow]
    simp [Nat.testBit_lor, VSOCK_FLAGS_SHUTDOWN_SEND]
    intros
    decide

/-- C4 evaluated at a concrete connection and packet. -/
theorem recv_pkt_zero_read_witness :
    connRw.recv_pkt pktSample (fun _ => StreamRead.ok []) true =
      ⟨none, { connRw with rx_queue := ⟨[]⟩, last_fwd_cnt := connRw.fwd_cnt },
        { connRw.init_pkt pktSample with op := VSOCK_OP_SHUTDOWN, flags :=
            pktSample.flags ||| VSOCK_FLAGS_SHUTDOWN_RCV |||
            VSOCK_FLAGS_SHUTDOWN_SEND }⟩
    ∧ (connRw.recv_pkt pktSample (fun _ => StreamRead.ok []) true).pkt.flags
        &&& VSOCK_FLAGS_SHUTDOWN_RCV ≠ 0
    ∧ (connRw.recv_pkt pktSample (fun _ => StreamRead.ok []) true).pkt.flags
        &&& VSOCK_FLAGS_SHUTDOWN_SEND ≠ 0 :=
  recv_pkt_zero_read connRw pktSample (fun _ => StreamRead.ok []) true []
    [7, 8, 9, 10, 11] rfl rfl (by decide) rfl rfl rfl (by decide)

/-- C5: in send_bytes with an empty transmit buffer, a would-block write is
the same as a zero-byte write (not an error); after a write of cnt bytes
the forwarded count grows by exactly cnt (wrapping), a CreditUpdate
operation is enqueued, and exactly the unwritten remainder of the supplied
bytes ends up in the transmit buffer. -/
theorem send_bytes_direct (c : VsockConnection) (buf : List Nat) (cnt : Nat)
    (hempty : c.tx_buf.is_empty = true) (hcnt : cnt ≤ buf.length) :
    c.send_bytes buf StreamWrite.wouldBlock = c.send_bytes buf (StreamWrite.ok 0)
    ∧ c.send_bytes buf (StreamWrite.ok cnt) =
        Except.ok { c with
          fwd_cnt := wadd c.fwd_cnt cnt
          rx_queue := c.rx_queue.enqueue RxOps.CreditUpdate
          tx_buf := ⟨buf.drop cnt⟩ }
    ∧ (c.rx_queue.enqueue RxOps.CreditUpdate).contains RxOps.CreditUpdate =
        true := by
  have hbuf : c.tx_buf = ⟨[]⟩ := by
    cases htb : c.tx_buf with
    | mk d =>
      rw [htb] at hempty
      simp [LocalTxBuf.is_empty] at hempty
      simp [hempty]
  refine ⟨by simp [VsockConnection.send_bytes, hempty], ?_, ?_⟩
  · by_cases hc : cnt = buf.length
    · subst hc
      simp [VsockConnection.send_bytes, hempty,
        VsockConnection.send_bytes_after_write, List.drop_length, hbuf,
        LocalTxBuf.is_empty]
    · simp [VsockConnection.send_bytes, hempty,
        VsockConnection.send_bytes_after_write, hc, LocalTxBuf.push,
        Except.map, hbuf, LocalTxBuf.is_empty]
  · simp only [RxQueue.enqueue, RxQueue.contains]
    split
    · exact ‹_›
    · simp

/-- C5 evaluated at a concrete connection with a partial two-of-three-bytes
write. -/
theorem send_bytes_direct_witness :
    connRw.send_bytes [1, 2, 3] StreamWrite.wouldBlock =
      connRw.send_bytes [1, 2, 3] (StreamWrite.ok 0)
    ∧ connRw.send_bytes [1, 2, 3] (StreamWrite.ok 2) =
        Except.ok { connRw with
          fwd_cnt := wadd connRw.fwd_cnt 2
          rx_queue := connRw.rx_queue.enqueue RxOps.CreditUpdate
          tx_buf := ⟨List.drop 2 [1, 2, 3]⟩ }
    ∧ (connRw.rx_queue.enqueue RxOps.CreditUpdate).contains
        RxOps.CreditUpdate = true :=
  send_bytes_direct connRw [1, 2, 3] 2 rfl (by decide)

/-- C6: consuming a SHUTDOWN packet always succeeds, and a Reset operation
is enqueued exactly when the packet requests both shutdown directions and
the local transmit buffer is empty; otherwise the rx queue is untouched. -/
theorem send_pkt_shutdown (c0 : VsockConnection) (pkt : VsockPacket)
    (w : StreamWrite) (wa : Bool) (em : Bool) (er : Bool)
    (hop : pkt.op = VSOCK_OP_SHUTDOWN) :
    (c0.send_pkt pkt w wa em er).status = SendStatus.ok
    ∧ (c0.send_pkt pkt w wa em er).conn.rx_queue =
        (if (pkt.flags &&& VSOCK_FLAGS_SHUTDOWN_RCV != 0)
            && (pkt.flags &&& VSOCK_FLAGS_SHUTDOWN_SEND != 0)
            && c0.tx_buf.is_empty
         then c0.rx_queue.enqueue RxOps.Reset else c0.rx_queue) := by
  unfold VsockConnection.send_pkt
  simp only [hop]
  norm_num [VSOCK_OP_RESPONSE, VSOCK_OP_RW, VSOCK_OP_CREDIT_UPDATE,
    VSOCK_OP_CREDIT_REQUEST, VSOCK_OP_SHUTDOWN]
  split <;> simp

/-- C6 evaluated at a both-flags SHUTDOWN packet on a connection with an
empty transmit buffer. -/
theorem send_pkt_shutdown_witness :
    (connRw.send_pkt pktShutdown StreamWrite.wouldBlock true true true).status =
      SendStatus.ok
    ∧ (connRw.send_pkt pktShutdown StreamWrite.wouldBlock true true true).conn.rx_queue =
        (if (pktShutdown.flags &&& VSOCK_FLAGS_SHUTDOWN_RCV != 0)
            && (pktShutdown.flags &&& VSOCK_FLAGS_SHUTDOWN_SEND != 0)
            && connRw.tx_buf.is_empty
         then connRw.rx_queue.enqueue RxOps.Reset else connRw.rx_queue) :=
  send_pkt_shutdown connRw pktShutdown StreamWrite.wouldBlock true true true rfl

/-- C7: recv_pkt dequeuing an Rw operation on a connection that is not yet
connected sets the packet operation to RST and returns success, without
consulting the read oracle and leaving every credit counter unchanged. -/
theorem recv_pkt_rw_not_connected (c : VsockConnection) (pkt : VsockPacket)
    (read : Nat → StreamRead) (er : Bool) (rest : List RxOps)
    (hconn : c.connect = false) (hq : c.rx_queue.queue = RxOps.Rw :: rest) :
    c.recv_pkt pkt read er =
      ⟨none, { c with rx_queue := ⟨rest⟩ },
        { c.init_pkt pkt with op := VSOCK_OP_RST }⟩ := by
  simp [VsockConnection.recv_pkt, RxQueue.dequeue, hq, hconn]

/-- C7 evaluated at a concrete not-yet-connected connection. -/
theorem recv_pkt_rw_not_connected_witness :
    connRwNoConn.recv_pkt pktSample (fun _ => StreamRead.err) true =
      ⟨none, { connRwNoConn with rx_queue := ⟨[]⟩ },
        { connRwNoConn.init_pkt pktSample with op := VSOCK_OP_RST }⟩ :=
  recv_pkt_rw_not_connected connRwNoConn pktSample (fun _ => StreamRead.err)
    true [] rfl rfl

/-- C8: recv_pkt dequeuing an Rw operation on a connected connection with
zero peer available credit records last_fwd_cnt = fwd_cnt, sets the packet
operation to CREDIT_REQUEST and returns success, without consulting the
read oracle. -/
theorem recv_pkt_rw_no_credit (c : VsockConnection) (pkt : VsockPacket)
    (read : Nat → StreamRead) (er : Bool) (rest : List RxOps)
    (hconn : c.connect = true) (hq : c.rx_queue.queue = RxOps.Rw :: rest)
    (hcred : c.need_credit_update_from_peer = true) :
    c.recv_pkt pkt read er =
      ⟨none, { c with rx_queue := ⟨rest⟩, last_fwd_cnt := c.fwd_cnt },
        { c.init_pkt pkt with op := VSOCK_OP_CREDIT_REQUEST }⟩ := by
  simp [VsockConnection.recv_pkt, RxQueue.dequeue, hq, hconn, hcred]

/-- C8 evaluated at a concrete connected connection with zero credit. -/
theorem recv_pkt_rw_no_credit_witness :
    connRwNoCredit.recv_pkt pktSample (fun _ => StreamRead.err) true =
      ⟨none, { connRwNoCredit with rx_queue := ⟨[]⟩, last_fwd_cnt := connRwNoCredit.fwd_cnt },
        { connRwNoCredit.init_pkt pktSample with op := VSOCK_OP_CREDIT_REQUEST }⟩ :=
  recv_pkt_rw_no_credit connRwNoCredit pktSample (fun _ => StreamRead.err)
    true [] rfl rfl (by decide)

/-- C9: when the read obtained bytes but the descriptor re-registration
fails, recv_pkt returns the registration error while the packet operation
has already been set to RW and its length to the bytes read, and rx_cnt and
last_fwd_cnt are left un-updated: recv_pkt is not atomic on a registration
error. -/
theorem recv_pkt_epoll_err (c : VsockConnection) (pkt : VsockPacket)
    (read : Nat → StreamRead) (rest : List RxOps) (b : List Nat)
    (bytes : List Nat)
    (hconn : c.connect = true) (hq : c.rx_queue.queue = RxOps.Rw :: rest)
    (hcred : c.need_credit_update_from_peer = false)
    (hbuf : pkt.buf = some b)
    (hread : read (min b.length c.peer_avail_credit) = StreamRead.ok bytes)
    (hne : bytes ≠ []) (hblen : bytes.length < U32M) :
    c.recv_pkt pkt read false =
      ⟨some VsockError.EpollAdd, { c with rx_queue := ⟨rest⟩ },
        { c.init_pkt pkt with op := VSOCK_OP_RW, len := bytes.length, buf := some (bytes ++ b.drop bytes.length) }⟩ := by
  simp [VsockConnection.recv_pkt, RxQueue.dequeue, hq, hconn, hcred,
    VsockConnection.init_pkt, hbuf, hread, hne, List.length_eq_zero,
    Nat.mod_eq_of_lt hblen]

/-- C9 evaluated at a concrete two-byte read with failing registration. -/
theorem recv_pkt_epoll_err_witness :
    connRw.recv_pkt pktSample (fun _ => StreamRead.ok [1, 2]) false =
      ⟨some VsockError.EpollAdd, { connRw with rx_queue := ⟨[]⟩ },
        { connRw.init_pkt pktSample with op := VSOCK_OP_RW, len := ([1, 2] : List Nat).length, buf := some ([1, 2] ++ ([7, 8, 9, 10, 11] : List Nat).drop ([1, 2] : List Nat).length) }⟩ :=
  recv_pkt_epoll_err connRw pktSample (fun _ => StreamRead.ok [1, 2]) []
    [7, 8, 9, 10, 11] [1, 2] rfl rfl (by decide) rfl rfl (by decide) (by decide)

/-- C10: send_bytes invoked while the transmit buffer is non-empty appends
the bytes to the buffer and succeeds, independently of the write oracle (no
stream write is attempted), with fwd_cnt and the rx queue unchanged. -/
theorem send_bytes_buffers (c : VsockConnection) (buf : List Nat)
    (w : StreamWrite) (h : c.tx_buf.is_empty = false) :
    c.send_bytes buf w = Except.ok { c with tx_buf := ⟨c.tx_buf.data ++ buf⟩ } := by
  simp [VsockConnection.send_bytes, h, LocalTxBuf.push, Except.map]

/-- C10 evaluated at a connection with one byte already buffered. -/
theorem send_bytes_buffers_witness :
    connBusy.send_bytes [1, 2] StreamWrite.err =
      Except.ok { connBusy with tx_buf := ⟨connBusy.tx_buf.data ++ [1, 2]⟩ } :=
  send_bytes_buffers connBusy [1, 2] StreamWrite.err rfl
